import Mathlib

/-!
Verification development for the logseq-super-sync plugin core: the
change-coalescing backup scheduler (src/unnamed/part_008), the provider base
class with cached remote diffing (src/unnamed/part_000), the backup dispatch
and full-backup filtering (src/src/services/backup-service.ts,
src/unnamed/part_005), the key derivation of the S3 and WebDAV providers
(src/unnamed/part_001, src/src/providers/webdav-provider.ts), and the
startup synchronization pass (SyncService in src/src/utils/file-utils.ts).

The TypeScript sources are embedded shallowly: timestamps are integers in
milliseconds (Int), JavaScript Date parsing is an external collaborator
modelled as a function String to Option Int where none stands for an
Invalid Date (getTime gives NaN; every NaN comparison is false), thrown
exceptions are modelled with the JsResult type, and the event-loop
interleaving of the debouncer is modelled as explicit small steps on a
state record.
-/

namespace SuperSync

/-- Result of a JavaScript async call: resolved value or thrown/rejected error. -/
inductive JsResult (α : Type) where
  | ok (value : α)
  | thrown (msg : String)
deriving Repr, DecidableEq

/-- Truthiness of an optional JavaScript string: undefined/null and the empty
string are falsy. -/
def jsTruthyStr : Option String → Bool
  | some s => s != ""
  | none => false

/-- JavaScript String.prototype.startsWith, via structural list recursion. -/
def jsStartsWith (s pre : String) : Bool :=
  List.isPrefixOf pre.toList s.toList

/-- JavaScript String.prototype.endsWith, via structural list recursion. -/
def jsEndsWith (s post : String) : Bool :=
  List.isSuffixOf post.toList s.toList

/-- JavaScript String.prototype.trim (whitespace stripped from both ends). -/
def jsTrim (s : String) : String :=
  String.mk (((s.toList.dropWhile Char.isWhitespace).reverse.dropWhile
    Char.isWhitespace).reverse)

/-- JavaScript String.prototype.toLowerCase for the ASCII strings involved. -/
def jsToLower (s : String) : String :=
  String.mk (s.toList.map Char.toLower)

/-- JavaScript String.prototype.split with a one-character separator. -/
def splitOnChar (sep : Char) : List Char → List (List Char)
  | [] => [[]]
  | c :: cs =>
      let rest := splitOnChar sep cs
      if c == sep then [] :: rest
      else
        match rest with
        | [] => [[c]]
        | r :: rs => (c :: r) :: rs

/-- Subtraction of two possibly-NaN numbers (none models NaN). -/
def jsSub : Option Int → Option Int → Option Int
  | some x, some y => some (x - y)
  | _, _ => none

/-- JavaScript test x less than 0 for a possibly-NaN x: NaN comparisons are false. -/
def jsLtZero : Option Int → Bool
  | some x => x < 0
  | none => false

/-! ## Data model: BackupMetadata (src/src/providers/provider-registry.ts 31-62) -/

/-- BackupMetadata record from provider.interface. Optional fields are Option;
timestamp stays a string, parsed by the external Date collaborator. -/
structure BackupMetadata where
  timestamp : String
  version : String
  graphName : String
  pageName : String
  fileType : Option String
  filePath : Option String
  fileName : Option String
  journalDay : Option String
  size : Nat
deriving Repr, DecidableEq

/-! ## Cached remote diffing (src/unnamed/part_000, BaseBackupProvider) -/

/-- Filter predicate of getRemoteMetadataFromCache (part_000 line 135-137):
backup.filePath && (backup.filePath === filePath || backup.filePath.endsWith(filePath)). -/
def matchesFilePath (filePath : String) (b : BackupMetadata) : Bool :=
  match b.filePath with
  | some p => p != "" && (p == filePath || jsEndsWith p filePath)
  | none => false

/-- Stable insertion of one element into a list sorted by the comparator
(a, b) => parse(b.timestamp) - parse(a.timestamp): descending by parsed time,
NaN comparator results are not negative so such elements do not move forward. -/
def insertByDesc (parse : String → Option Int) (x : BackupMetadata) :
    List BackupMetadata → List BackupMetadata
  | [] => [x]
  | y :: ys =>
      if jsLtZero (jsSub (parse y.timestamp) (parse x.timestamp)) then x :: y :: ys
      else y :: insertByDesc parse x ys

/-- Stable sort by descending parsed timestamp, mirroring
matchingBackups.sort((a, b) => new Date(b.timestamp).getTime() - new Date(a.timestamp).getTime())
at part_000 line 142-144 (Array.prototype.sort is stable). -/
def sortByTimestampDesc (parse : String → Option Int)
    (l : List BackupMetadata) : List BackupMetadata :=
  l.foldl (fun acc x => insertByDesc parse x acc) []

/-- Latest backup matching a file path: filter, sort descending, take the head
(part_000 lines 134-146; an empty match list gives none). -/
def latestMatching (parse : String → Option Int) (backups : List BackupMetadata)
    (filePath : String) : Option BackupMetadata :=
  (sortByTimestampDesc parse (backups.filter (matchesFilePath filePath))).head?

/-- getRemoteMetadataFromCache (part_000 130-147). cached models _cachedBackups
(none when unset or nulled by updateSettings; a cached empty array is truthy in
JavaScript, hence some []). On a cache miss it falls back to listBackups, which
throws when the provider is not initialized (part_000 46-57) and otherwise
returns the result of listFiles with errors caught to an empty list; that
resolved value is modelled by listResult. -/
def getRemoteMetadataFromCache (parse : String → Option Int) (initialized : Bool)
    (cached : Option (List BackupMetadata)) (listResult : List BackupMetadata)
    (filePath : String) : JsResult (Option BackupMetadata) :=
  match cached with
  | some backups => .ok (latestMatching parse backups filePath)
  | none =>
      if initialized then .ok (latestMatching parse listResult filePath)
      else .thrown "provider not initialized"

/-- Four-way diff outcome of BaseBackupProvider.diffWithRemote. -/
inductive DiffResult where
  | localNewer
  | remoteNewer
  | same
  | remoteMissing
deriving Repr, DecidableEq

/-- Timestamp comparison of diffWithRemote (part_000 111-120) on the parsed
remote timestamp. When the remote timestamp string does not parse (new Date
gives Invalid Date), getTime() is NaN: Math.abs(NaN - x) is NaN, NaN < 5000
is false, and localUpdatedAt > NaN is false, so control falls through to
remote-newer without throwing. -/
def compareTimes (remoteParsed : Option Int) (localUpdatedAt : Int) : DiffResult :=
  match remoteParsed with
  | some remoteTime =>
      if |remoteTime - localUpdatedAt| < 5000 then .same
      else if localUpdatedAt > remoteTime then .localNewer
      else .remoteNewer
  | none => .remoteNewer

/-- diffWithRemote (part_000 102-125). localUpdatedAt is in milliseconds. The
catch branch (local-newer) is reached only by a thrown error, such as
listBackups called on an uninitialized provider with no cache. -/
def diffWithRemote (parse : String → Option Int) (initialized : Bool)
    (cached : Option (List BackupMetadata)) (listResult : List BackupMetadata)
    (filePath : String) (localUpdatedAt : Int) : DiffResult :=
  match getRemoteMetadataFromCache parse initialized cached listResult filePath with
  | .thrown _ => .localNewer
  | .ok none => .remoteMissing
  | .ok (some remoteMetadata) => compareTimes (parse remoteMetadata.timestamp) localUpdatedAt

/-! ## Key derivation (src/unnamed/part_001 65-96, src/src/providers/webdav-provider.ts 53-78) -/

/-- Prefix normalization of the S3 provider (part_001 67-69): append a slash
unless the configured path prefix already ends with one. -/
def s3NormalizePfx (pathPfx : String) : String :=
  if jsEndsWith pathPfx "/" then pathPfx else pathPfx ++ "/"

/-- Prefix normalization of the WebDAV provider (webdav-provider.ts 54-56):
webdav_pathPrefix?.endsWith("/") ? p : (p || "logseq-backup") + "/". -/
def webdavNormalizePfx (pathPfx : Option String) : String :=
  match pathPfx with
  | some p => if jsEndsWith p "/" then p else (if p != "" then p else "logseq-backup") ++ "/"
  | none => "logseq-backup" ++ "/"

/-- Test for the journal page-name pattern /^\d\d\d\d-\d\d-\d\d/ used by both
providers (part_001 line 84, webdav-provider.ts line 67). -/
def isJournalPageName (s : String) : Bool :=
  match s.toList with
  | a :: b :: c :: d :: e :: f :: g :: h :: i :: j :: _ =>
      a.isDigit && b.isDigit && c.isDigit && d.isDigit && e == '-' &&
      f.isDigit && g.isDigit && h == '-' && i.isDigit && j.isDigit
  | _ => false

/-- Journal file name used by both providers: the page name is cut at the
first space, every dash is replaced with an underscore, and ".md" is
appended. -/
def journalFileNameOf (pageName : String) : String :=
  String.mk ((pageName.toList.takeWhile (fun c => c != ' ')).map
    (fun c => if c == '-' then '_' else c)) ++ ".md"

/-- Regular page file name used by the providers:
pageName.replace(/ /g, "_").toLowerCase() + ".md". -/
def providerPageFileName (pageName : String) : String :=
  String.mk (pageName.toList.map (fun c => if c == ' ' then '_' else c.toLower)) ++ ".md"

/-- Timestamp sanitization: timestamp.replace(/[:.]/g, "-"). -/
def sanitizeTimestamp (ts : String) : String :=
  String.mk (ts.toList.map (fun c => if c == ':' || c == '.' then '-' else c))

/-- S3BackupProvider.generateBackupKey (part_001 65-96). pathPfx is the
s3_pathPrefix setting. -/
def s3GenerateBackupKey (pathPfx : String) (metadata : BackupMetadata) : String :=
  if jsTruthyStr metadata.filePath then
    if jsStartsWith (metadata.filePath.getD "") (metadata.graphName ++ "/") then
      s3NormalizePfx pathPfx ++ metadata.filePath.getD ""
    else
      s3NormalizePfx pathPfx ++ metadata.graphName ++ "/" ++ metadata.filePath.getD ""
  else if metadata.pageName != "" then
    if isJournalPageName metadata.pageName then
      s3NormalizePfx pathPfx ++ metadata.graphName ++ "/journals/" ++
        journalFileNameOf metadata.pageName
    else
      s3NormalizePfx pathPfx ++ metadata.graphName ++ "/pages/" ++
        providerPageFileName metadata.pageName
  else
    s3NormalizePfx pathPfx ++ metadata.graphName ++ "/backups/" ++
      sanitizeTimestamp metadata.timestamp ++ ".zip"

/-- WebDAVBackupProvider.generateBackupKey (webdav-provider.ts 53-78); the body
matches the S3 version except for the prefix normalization. -/
def webdavGenerateBackupKey (pathPfx : Option String) (metadata : BackupMetadata) : String :=
  if jsTruthyStr metadata.filePath then
    if jsStartsWith (metadata.filePath.getD "") (metadata.graphName ++ "/") then
      webdavNormalizePfx pathPfx ++ metadata.filePath.getD ""
    else
      webdavNormalizePfx pathPfx ++ metadata.graphName ++ "/" ++ metadata.filePath.getD ""
  else if metadata.pageName != "" then
    if isJournalPageName metadata.pageName then
      webdavNormalizePfx pathPfx ++ metadata.graphName ++ "/journals/" ++
        journalFileNameOf metadata.pageName
    else
      webdavNormalizePfx pathPfx ++ metadata.graphName ++ "/pages/" ++
        providerPageFileName metadata.pageName
  else
    webdavNormalizePfx pathPfx ++ metadata.graphName ++ "/backups/" ++
      sanitizeTimestamp metadata.timestamp ++ ".zip"

/-! ## Dispatch aggregation (src/src/services/backup-service.ts 224-264) -/

/-- Outcome of one provider.backup call inside BackupService.backupPage:
either a resolved boolean or a thrown/rejected error. -/
inductive StoreOutcome where
  | ok (success : Bool)
  | threw (msg : String)
deriving Repr, DecidableEq

/-- Per-provider settling in backupPage (lines 236-243): a caught provider
error becomes a false result and does not affect the sibling providers. -/
def settleOutcome : StoreOutcome → Bool
  | .ok b => b
  | .threw _ => false

/-- Aggregate counts reported by backupPage (lines 247-248). -/
structure DispatchReport where
  successCount : Nat
  totalCount : Nat
deriving Repr, DecidableEq

/-- successCount = results.filter(Boolean).length over the settled outcomes of
Promise.all, totalCount = the number of providers dispatched to. -/
def dispatchReport (outcomes : List StoreOutcome) : DispatchReport :=
  { successCount := ((outcomes.map settleOutcome).filter (fun b => b)).length,
    totalCount := outcomes.length }

/-- Three-way classification surfaced by backupPage (lines 250-259). -/
inductive DispatchClass where
  | fullSuccess
  | partialSuccess
  | fullFailure
deriving Repr, DecidableEq

/-- Classification chain: successCount === providerCount, else successCount > 0,
else failure. -/
def classifyDispatch (r : DispatchReport) : DispatchClass :=
  if r.successCount = r.totalCount then .fullSuccess
  else if r.successCount > 0 then .partialSuccess
  else .fullFailure

/-! ## Change coalescing (src/unnamed/part_008) -/

/-- debounceDelay = (settings.debounceTime || 5) * 1000 (part_008 line 71):
a zero (falsy) debounceTime falls back to 5 seconds. -/
def debounceDelayMs (debounceTime : Nat) : Int :=
  (if debounceTime = 0 then 5 else (debounceTime : Int)) * 1000

/-- State of the module-level debounceData record (part_008 4-9), with two
model additions: timer stores the absolute fire time of the pending setTimeout
(none when no timeout is pending), and processedPasses records the snapshots
handed to backupService.processChanges, oldest first. Change events are
identified by Nat ids. -/
structure DebounceState where
  timer : Option Int
  changeBuffer : List Nat
  isProcessing : Bool
  lastEditTimestamp : Int
  processedPasses : List (List Nat)
deriving Repr, DecidableEq

/-- Initial debounceData as reset by setupEventHandlers (part_008 17-25). -/
def initialDebounceState : DebounceState :=
  { timer := none, changeBuffer := [], isProcessing := false,
    lastEditTimestamp := 0, processedPasses := [] }

/-- resetDebounceTimer (part_008 63-88): clearTimeout of any pending timeout
and setTimeout of a new one due a full delay from now; replacing the timer
field models the cancel-then-arm pair. -/
def resetDebounceTimer (delay now : Int) (s : DebounceState) : DebounceState :=
  { s with timer := some (now + delay) }

/-- The logseq.DB.onChanged handler (part_008 28-42): push the event onto the
buffer, stamp lastEditTimestamp with Date.now(), and always reset the timer,
regardless of processing state. -/
def onChangedHandler (delay : Int) (e : Nat) (now : Int) (s : DebounceState) : DebounceState :=
  resetDebounceTimer delay now
    { s with changeBuffer := s.changeBuffer ++ [e], lastEditTimestamp := now }

/-- Finally block of processChangesIfNeeded (part_008 114-123), run when the
await of backupService.processChanges(snapshot) settles (fulfilled or
rejected) at time now: clear isProcessing and re-arm the timer when new
changes accumulated during the pass. Recording the snapshot in
processedPasses marks that the processing callback ran with it. -/
def processEnd (delay now : Int) (snapshot : List Nat) (s : DebounceState) : DebounceState :=
  if s.changeBuffer = [] then
    { s with isProcessing := false, processedPasses := s.processedPasses ++ [snapshot] }
  else
    resetDebounceTimer delay now
      { s with isProcessing := false, processedPasses := s.processedPasses ++ [snapshot] }

/-- processChangesIfNeeded (part_008 93-124) with no event interleaved during
the await: return unless the buffer is non-empty and no pass is running;
otherwise set isProcessing, snapshot and clear the buffer, run the callback,
and finish with the finally block. -/
def processChangesIfNeeded (delay now : Int) (s : DebounceState) : DebounceState :=
  if s.changeBuffer = [] ∨ s.isProcessing = true then s
  else
    processEnd delay now s.changeBuffer
      { s with isProcessing := true, changeBuffer := [] }

/-- Body of the setTimeout callback armed by resetDebounceTimer (part_008
74-87), invoked when the pending timeout fires at time now (firing consumes
the timeout): if less than the delay elapsed since the last edit, rearm;
otherwise process. -/
def timerCallback (delay now : Int) (s : DebounceState) : DebounceState :=
  if now - s.lastEditTimestamp < delay then
    resetDebounceTimer delay now { s with timer := none }
  else processChangesIfNeeded delay now { s with timer := none }

/-- Delivery of a burst of change events: the event arriving at the head time
gets id i, the next id i+1, and so on. -/
def runEditsFrom (delay : Int) (i : Nat) : List Int → DebounceState → DebounceState
  | [], s => s
  | t :: ts, s => runEditsFrom delay (i + 1) ts (onChangedHandler delay i t s)

/-- Delivery of a burst of change events at the given times into a freshly
reset debouncer. -/
def runEdits (delay : Int) (times : List Int) : DebounceState :=
  runEditsFrom delay 0 times initialDebounceState

/-- Delivery of a list of (event id, time) pairs through the onChanged handler. -/
def foldHandlers (delay : Int) (evs : List (Nat × Int)) (s : DebounceState) : DebounceState :=
  evs.foldl (fun st p => onChangedHandler delay p.1 p.2 st) s

/-- The logseq.beforeunload teardown handler (part_008 45-56): cancel any
pending timeout, then invoke backupService.processChanges with the whole
buffer when it is non-empty and no pass is in flight. The second component
lists the processChanges invocations the handler makes. -/
def beforeunloadHandler (s : DebounceState) : DebounceState × List (List Nat) :=
  if 0 < s.changeBuffer.length ∧ s.isProcessing = false then
    ({ s with timer := none }, [s.changeBuffer])
  else ({ s with timer := none }, [])

/-! ## Startup synchronization pass (SyncService, src/src/utils/file-utils.ts) -/

/-- Per-provider state visible to the sync pass: initialized flag, the
_cachedBackups field, and the value a listBackups round-trip resolves to. -/
structure SyncProviderState where
  initialized : Bool
  cached : Option (List BackupMetadata)
  listResult : List BackupMetadata
deriving Repr, DecidableEq

/-- Catalog population step of performInitialSync (file-utils.ts 113-121): one
listBackups call per enabled provider, memoized into _cachedBackups. The
second component counts the listBackups invocations made. -/
def populateCache (p : SyncProviderState) : SyncProviderState × Nat :=
  ({ p with cached := some p.listResult }, 1)

/-- Number of listBackups round-trips performed inside diffWithRemote for one
comparison: zero when _cachedBackups is set (any array, even empty, is
truthy), one on a cache miss against an initialized provider, and zero when
the uninitialized fallback throws before reaching listFiles. -/
def diffListCalls (p : SyncProviderState) : Nat :=
  match p.cached with
  | some _ => 0
  | none => if p.initialized then 1 else 0

/-- listBackups invocations made while syncing one page against one provider
(syncPage, file-utils.ts 137-185): the diff consults the cache, and a
remote-newer decision runs pullFromRemote, which calls provider.listBackups()
again (file-utils.ts line 292). Pages are given as (resolved file path, local
updatedAt). -/
def syncPageListCalls (parse : String → Option Int) (p : SyncProviderState)
    (filePath : String) (localUpdatedAt : Int) : Nat :=
  diffListCalls p +
    (if diffWithRemote parse p.initialized p.cached p.listResult filePath localUpdatedAt
        = .remoteNewer then 1 else 0)

/-- listBackups invocations of a whole performInitialSync pass against one
enabled provider (file-utils.ts 106-132): populate the cache once, then sync
every page with the populated cache. -/
def initialSyncListCalls (parse : String → Option Int) (p : SyncProviderState)
    (pages : List (String × Int)) : Nat :=
  (populateCache p).2 +
    (pages.map (fun pg => syncPageListCalls parse (populateCache p).1 pg.1 pg.2)).sum

/-! ## Tag-page detection and full-backup filtering
(src/unnamed/part_005, src/src/services/backup-service.ts 269-395,
src/src/core/settings.ts 239-266) -/

/-- Value of page.properties.tags as seen by detectTagPage: absent/undefined,
a string, or an array. Note an empty array is truthy in JavaScript. -/
inductive PageTagsValue where
  | absent
  | strVal (s : String)
  | arrVal (tags : List String)
deriving Repr, DecidableEq

/-- JavaScript truthiness of the tags property value. -/
def tagsTruthy : PageTagsValue → Bool
  | .absent => false
  | .strVal s => s != ""
  | .arrVal _ => true

/-- The slice of a Logseq page object read by detectTagPage, createPageBackup
and the backupAllPages loop. hasProperties models the truthiness of
page.properties, propertiesNamespace the truthiness of
page.properties[":namespace"]. -/
structure LogseqPage where
  name : String
  originalName : Option String
  hasProperties : Bool
  propertiesTags : PageTagsValue
  propertiesNamespace : Bool
  journalDay : Option Nat
deriving Repr, DecidableEq

/-- Special page names treated as tag pages (part_005 line 261). -/
def tagPageNames : List String := ["tags", "tag", "all-tags", "all-pages"]

/-- detectTagPage (part_005 236-267). -/
def detectTagPage (page : LogseqPage) : Bool :=
  if page.name != "" && jsStartsWith page.name "#" then true
  else if (match page.originalName with
           | some o => o != "" && jsStartsWith o "#"
           | none => false) then true
  else if page.hasProperties && tagsTruthy page.propertiesTags then true
  else if page.hasProperties && page.propertiesNamespace then true
  else if page.name != "" && tagPageNames.contains (jsToLower page.name) then true
  else false

/-- Settings fields consulted by the full-backup filter. -/
structure SettingsModel where
  backupMode : String
  backupTags : String
deriving Repr, DecidableEq

/-- parseBackupTags (settings.ts 239-247): split the comma-separated setting,
trim and lowercase each entry, drop empties. -/
def parseBackupTags (tagsString : String) : List String :=
  if tagsString == "" || jsTrim tagsString == "" then []
  else
    (((splitOnChar ',' tagsString.toList).map
        (fun t => jsToLower (jsTrim (String.mk t)))).filter
      (fun t => t.length > 0))

/-- shouldBackupPage (settings.ts 252-266). -/
def shouldBackupPage (pageTags : List String) (settings : SettingsModel) : Bool :=
  if settings.backupMode == "all" then true
  else
    let requiredTags := parseBackupTags settings.backupTags
    if requiredTags.length = 0 then true
    else
      let normalizedPageTags := pageTags.map jsToLower
      requiredTags.any (fun tag => normalizedPageTags.contains tag)

/-- Per-page decision of the backupAllPages loop (backup-service.ts 304-330),
in source order: system-page skip, tag-page skip, tagged-mode tag filter, then
the page is attempted. pageTags is the value getPageTags resolved to for this
page. Each of the three skips increments skippedCount. -/
inductive PageBackupDecision where
  | skippedSystem
  | skippedTagPage
  | skippedNoMatchingTag
  | attempted
deriving Repr, DecidableEq

/-- Decision function of the backupAllPages loop (backup-service.ts 304-330). -/
def pageBackupDecision (settings : SettingsModel) (page : LogseqPage)
    (pageTags : List String) : PageBackupDecision :=
  if jsStartsWith page.name "logseq-" || page.name == "contents" || page.name == "card" then
    .skippedSystem
  else if detectTagPage page then .skippedTagPage
  else if settings.backupMode == "tagged" && !(shouldBackupPage pageTags settings) then
    .skippedNoMatchingTag
  else .attempted

/-- File name of a journal page derived from journalDay (part_005 42-47):
String(journalDay) sliced as YYYY, MM, DD and joined with underscores. -/
def journalDayFileName (journalDay : Nat) : String :=
  let s := (toString journalDay).toList
  String.mk (s.take 4) ++ "_" ++ String.mk ((s.drop 4).take 2) ++ "_" ++
    String.mk ((s.drop 6).take 2) ++ ".md"

/-- File name of a regular page (part_005 line 51):
page.name.replace(/ /g, "_").replace(/[^\w\d_.-]/g, "").toLowerCase() + ".md". -/
def regularPageFileName (name : String) : String :=
  String.mk (((name.toList.map (fun c => if c == ' ' then '_' else c)).filter
      (fun c => c.isAlphanum || c == '_' || c == '.' || c == '-')).map Char.toLower) ++ ".md"

/-- Observable outcome of createPageBackup (part_005 9-154): a thrown error
(no graph open, rethrown at line 152), a null return, or a produced backup
identified by its file path and file name. The ZIP payload assembly (JSZip)
is an external collaborator and is not modelled; page lookup and block-tree
lookup results are inputs. -/
inductive CreatePageBackupResult where
  | errored (msg : String)
  | nullResult
  | created (filePath fileName : String)
deriving Repr, DecidableEq

/-- createPageBackup (part_005 9-154) up to payload assembly: throw without an
open graph; null when the page is missing, when detectTagPage flags it (lines
26-31), or when it has no block tree; otherwise derive the journal or regular
file path (lines 33-54). -/
def createPageBackupResult (graphOpen : Bool) (page : Option LogseqPage)
    (hasBlocks : Bool) : CreatePageBackupResult :=
  if !graphOpen then .errored "No graph is currently open"
  else
    match page with
    | none => .nullResult
    | some pg =>
        if detectTagPage pg then .nullResult
        else
          let isJournalDay :=
            match pg.journalDay with
            | some jd => jd != 0
            | none => false
          let fileName :=
            if isJournalDay then journalDayFileName (pg.journalDay.getD 0)
            else regularPageFileName pg.name
          let filePath :=
            if isJournalDay then "journals/" ++ fileName else "pages/" ++ fileName
          if !hasBlocks then .nullResult
          else .created filePath fileName

/-! ## BaseBackupProvider.backup (src/unnamed/part_000 29-41) -/

/-- BaseBackupProvider.backup: throw when not initialized; otherwise derive
the key and upload inside a try/catch that converts any thrown error into a
resolved false. genKey models this.generateBackupKey(metadata) and upload
models this.uploadFile(key, data, metadata), each possibly throwing. -/
def providerBackup (initialized : Bool) (name : String)
    (genKey : JsResult String) (upload : String → JsResult Bool) : JsResult Bool :=
  if !initialized then .thrown (name ++ " provider not initialized")
  else
    match genKey with
    | .thrown _ => .ok false
    | .ok key =>
        match upload key with
        | .thrown _ => .ok false
        | .ok b => .ok b

/-! ## Concrete sample inputs used by witnesses and counterexamples -/

/-- Date collaborator on which every timestamp string is malformed. -/
def parseNone : String → Option Int := fun _ => none

/-- Date collaborator resolving two well-formed timestamp labels. -/
def parseTbl : String → Option Int := fun s =>
  if s == "r3" then some 3000
  else if s == "r100k" then some 100000
  else none

/-- Backup metadata with a given timestamp string and file path. -/
def mdAt (ts fp : String) : BackupMetadata :=
  { timestamp := ts, version := "1.0", graphName := "vault", pageName := "a",
    fileType := none, filePath := some fp, fileName := some "a.md",
    journalDay := none, size := 0 }

/-- Metadata with no filePath but a non-empty pageName. -/
def mdPageOnly : BackupMetadata :=
  { timestamp := "2024-01-01T00:00:00.000Z", version := "1.0", graphName := "vault",
    pageName := "My Page", fileType := none, filePath := none, fileName := none,
    journalDay := none, size := 0 }

/-- Metadata carrying the relativePath of the documented key-derivation example. -/
def mdExample : BackupMetadata :=
  { timestamp := "2024-01-01T00:00:00.000Z", version := "1.0", graphName := "vault",
    pageName := "notes/journals/2024 01 01", fileType := none,
    filePath := some "notes/journals/2024_01_01.md", fileName := some "2024_01_01.md",
    journalDay := none, size := 0 }

/-- Provider whose remote catalog holds one backup of vault/pages/a.md dated
100000 ms. -/
def provC8 : SyncProviderState :=
  { initialized := true, cached := none, listResult := [mdAt "r100k" "vault/pages/a.md"] }

/-! ## Shared helper lemmas -/

/-- Reduction of diffWithRemote when the metadata lookup resolves to a match. -/
lemma diffWithRemote_eq_of_ok_some (parse : String → Option Int) (initialized : Bool)
    (cached : Option (List BackupMetadata)) (listResult : List BackupMetadata)
    (filePath : String) (md : BackupMetadata) (localUpdatedAt : Int)
    (hmd : getRemoteMetadataFromCache parse initialized cached listResult filePath
        = .ok (some md)) :
    diffWithRemote parse initialized cached listResult filePath localUpdatedAt
      = compareTimes (parse md.timestamp) localUpdatedAt := by
  unfold diffWithRemote
  rw [hmd]

/-- Reduction of diffWithRemote when the metadata lookup resolves to no match. -/
lemma diffWithRemote_eq_of_ok_none (parse : String → Option Int) (initialized : Bool)
    (cached : Option (List BackupMetadata)) (listResult : List BackupMetadata)
    (filePath : String) (localUpdatedAt : Int)
    (hmd : getRemoteMetadataFromCache parse initialized cached listResult filePath
        = .ok none) :
    diffWithRemote parse initialized cached listResult filePath localUpdatedAt
      = .remoteMissing := by
  unfold diffWithRemote
  rw [hmd]

/-- Reduction of compareTimes inside the tolerance window. -/
lemma compareTimes_same (r localUpdatedAt : Int) (h : |r - localUpdatedAt| < 5000) :
    compareTimes (some r) localUpdatedAt = .same := by
  show (if |r - localUpdatedAt| < 5000 then DiffResult.same
        else if localUpdatedAt > r then DiffResult.localNewer else DiffResult.remoteNewer)
      = DiffResult.same
  rw [if_pos h]

/-- Reduction of compareTimes outside the tolerance window with an older local copy. -/
lemma compareTimes_remoteNewer (r localUpdatedAt : Int) (h1 : ¬ |r - localUpdatedAt| < 5000)
    (h2 : ¬ localUpdatedAt > r) : compareTimes (some r) localUpdatedAt = .remoteNewer := by
  show (if |r - localUpdatedAt| < 5000 then DiffResult.same
        else if localUpdatedAt > r then DiffResult.localNewer else DiffResult.remoteNewer)
      = DiffResult.remoteNewer
  rw [if_neg h1, if_neg h2]

/-- Reduction of compareTimes outside the tolerance window with a newer local copy. -/
lemma compareTimes_localNewer (r localUpdatedAt : Int) (h1 : ¬ |r - localUpdatedAt| < 5000)
    (h2 : localUpdatedAt > r) : compareTimes (some r) localUpdatedAt = .localNewer := by
  show (if |r - localUpdatedAt| < 5000 then DiffResult.same
        else if localUpdatedAt > r then DiffResult.localNewer else DiffResult.remoteNewer)
      = DiffResult.localNewer
  rw [if_neg h1, if_pos h2]

/-- Field characterization of a burst of handler calls on a non-empty time list. -/
lemma runEditsFrom_fields (delay : Int) :
    ∀ (ts : List Int) (t : Int) (i : Nat) (s : DebounceState),
      (runEditsFrom delay i (t :: ts) s).timer = some (ts.getLastD t + delay) ∧
      (runEditsFrom delay i (t :: ts) s).lastEditTimestamp = ts.getLastD t ∧
      (runEditsFrom delay i (t :: ts) s).changeBuffer
          = s.changeBuffer ++ List.range' i (ts.length + 1) ∧
      (runEditsFrom delay i (t :: ts) s).isProcessing = s.isProcessing ∧
      (runEditsFrom delay i (t :: ts) s).processedPasses = s.processedPasses := by
  intro ts
  induction ts with
  | nil =>
      intro t i s
      exact ⟨rfl, rfl, rfl, rfl, rfl⟩
  | cons u us ih =>
      intro t i s
      have h := ih u (i + 1) (onChangedHandler delay i t s)
      have hstep : runEditsFrom delay i (t :: u :: us) s
          = runEditsFrom delay (i + 1) (u :: us) (onChangedHandler delay i t s) := rfl
      rw [hstep]
      refine ⟨?_, ?_, ?_, ?_, ?_⟩
      · rw [List.getLastD_cons]
        exact h.1
      · rw [List.getLastD_cons]
        exact h.2.1
      · rw [h.2.2.1]
        show (s.changeBuffer ++ [i]) ++ List.range' (i + 1) (us.length + 1)
            = s.changeBuffer ++ List.range' i (us.length + 1 + 1)
        rw [List.append_assoc]
        rfl
      · exact h.2.2.2.1
      · exact h.2.2.2.2

/-- Field characterization of a list of handler calls: the buffer grows by the
event ids in order and the processing flag and pass history are untouched. -/
lemma foldHandlers_fields (delay : Int) :
    ∀ (evs : List (Nat × Int)) (s : DebounceState),
      (foldHandlers delay evs s).changeBuffer = s.changeBuffer ++ evs.map Prod.fst ∧
      (foldHandlers delay evs s).isProcessing = s.isProcessing ∧
      (foldHandlers delay evs s).processedPasses = s.processedPasses := by
  intro evs
  induction evs with
  | nil =>
      intro s
      refine ⟨?_, rfl, rfl⟩
      simp [foldHandlers]
  | cons p ps ih =>
      intro s
      have h := ih (onChangedHandler delay p.1 p.2 s)
      have hstep : foldHandlers delay (p :: ps) s
          = foldHandlers delay ps (onChangedHandler delay p.1 p.2 s) := rfl
      rw [hstep]
      refine ⟨?_, ?_, ?_⟩
      · rw [h.1]
        show (s.changeBuffer ++ [p.1]) ++ ps.map Prod.fst
            = s.changeBuffer ++ (p.1 :: ps.map Prod.fst)
        rw [List.append_assoc, List.singleton_append]
      · exact h.2.1
      · exact h.2.2

/-- A timer fire that passes the safety check on an idle debouncer with a
non-empty buffer runs exactly one processing pass over the whole buffer. -/
lemma timerCallback_processes (delay now : Int) (s : DebounceState)
    (hguard : ¬ now - s.lastEditTimestamp < delay)
    (hbuf : s.changeBuffer ≠ []) (hproc : s.isProcessing = false) :
    timerCallback delay now s =
      { timer := none, changeBuffer := [], isProcessing := false,
        lastEditTimestamp := s.lastEditTimestamp,
        processedPasses := s.processedPasses ++ [s.changeBuffer] } := by
  unfold timerCallback
  rw [if_neg hguard]
  unfold processChangesIfNeeded
  rw [if_neg (not_or.mpr ⟨hbuf, by rw [hproc]; simp⟩)]
  unfold processEnd
  rw [if_pos rfl]

/-- A timer fire failing the safety check only rearms the timer. -/
lemma timerCallback_rearms (delay now : Int) (s : DebounceState)
    (hguard : now - s.lastEditTimestamp < delay) :
    timerCallback delay now s
      = resetDebounceTimer delay now { s with timer := none } := by
  unfold timerCallback
  rw [if_pos hguard]

/-! ## Claim theorems -/

/-- C3: Dispatch aggregation. For three providers whose store outcomes settle
to [true, false, true] (an exception settles to false and leaves the sibling
results intact), backupPage reports successCount 2 of totalCount 3 and
classifies the outcome as partial; successCount equal to totalCount
classifies as full success, and successCount 0 over a non-empty provider set
classifies as full failure. -/
theorem C3_dispatch_aggregation :
    (∀ o1 o2 o3 : StoreOutcome, settleOutcome o1 = true → settleOutcome o2 = false →
        settleOutcome o3 = true →
        dispatchReport [o1, o2, o3] = ⟨2, 3⟩ ∧
        classifyDispatch (dispatchReport [o1, o2, o3]) = .partialSuccess) ∧
    (∀ os : List StoreOutcome,
        ((dispatchReport os).successCount = (dispatchReport os).totalCount →
          classifyDispatch (dispatchReport os) = .fullSuccess) ∧
        (os ≠ [] → (dispatchReport os).successCount = 0 →
          classifyDispatch (dispatchReport os) = .fullFailure)) := by
  constructor
  · intro o1 o2 o3 h1 h2 h3
    have hrep : dispatchReport [o1, o2, o3] = ⟨2, 3⟩ := by
      simp [dispatchReport, h1, h2, h3]
    refine ⟨hrep, ?_⟩
    rw [hrep]
    decide
  · intro os
    constructor
    · intro h
      unfold classifyDispatch
      rw [if_pos h]
    · intro hne h0
      have htot : (dispatchReport os).totalCount ≠ 0 := by
        simpa [dispatchReport, List.length_eq_zero] using hne
      have hns : ¬ (dispatchReport os).successCount = (dispatchReport os).totalCount := by
        rw [h0]
        exact fun hh => htot hh.symm
      unfold classifyDispatch
      rw [if_neg hns, h0]
      norm_num

/-- Witness for C3: outcomes [resolved true, thrown, resolved true] give the
2-of-3 partial report, and a lone false outcome classifies as full failure. -/
theorem C3_dispatch_aggregation_witness :
    (dispatchReport [.ok true, .threw "boom", .ok true] = ⟨2, 3⟩ ∧
      classifyDispatch (dispatchReport [.ok true, .threw "boom", .ok true])
        = .partialSuccess) ∧
    classifyDispatch (dispatchReport [.ok false]) = .fullFailure :=
  ⟨C3_dispatch_aggregation.1 (.ok true) (.threw "boom") (.ok true) rfl rfl rfl,
   (C3_dispatch_aggregation.2 [.ok false]).2 (by decide) (by decide)⟩

/-- C7: Shutdown flush. The beforeunload handler cancels any armed timer; when
the buffer is non-empty and no pass is in flight it invokes processChanges
exactly once with the entire buffer, with no quiescence condition; when a pass
is in flight or the buffer is empty it makes no invocation. -/
theorem C7_shutdown_flush (s : DebounceState) :
    (beforeunloadHandler s).1.timer = none ∧
    (s.changeBuffer ≠ [] → s.isProcessing = false →
      (beforeunloadHandler s).2 = [s.changeBuffer]) ∧
    (s.isProcessing = true → (beforeunloadHandler s).2 = []) ∧
    (s.changeBuffer = [] → (beforeunloadHandler s).2 = []) := by
  refine ⟨?_, ?_, ?_, ?_⟩
  · unfold beforeunloadHandler
    split <;> rfl
  · intro hne hproc
    unfold beforeunloadHandler
    rw [if_pos ⟨List.length_pos.mpr hne, hproc⟩]
  · intro hproc
    unfold beforeunloadHandler
    rw [if_neg (fun hh => absurd hh.2 (by rw [hproc]; simp))]
  · intro hbuf
    unfold beforeunloadHandler
    rw [if_neg (fun hh => absurd hh.1 (by rw [hbuf]; simp))]

/-- Witness for C7 at a state with an armed timer, buffer [0, 1] and no pass
in flight, and at the same state with a pass in flight. -/
theorem C7_shutdown_flush_witness :
    (beforeunloadHandler ⟨some 99, [0, 1], false, 42, []⟩).1.timer = none ∧
    (beforeunloadHandler ⟨some 99, [0, 1], false, 42, []⟩).2 = [[0, 1]] ∧
    (beforeunloadHandler ⟨some 99, [0, 1], true, 42, []⟩).2 = [] := by
  obtain ⟨h1, h2, _, _⟩ := C7_shutdown_flush ⟨some 99, [0, 1], false, 42, []⟩
  obtain ⟨_, _, h3, _⟩ := C7_shutdown_flush ⟨some 99, [0, 1], true, 42, []⟩
  exact ⟨h1, h2 (by decide) rfl, h3 rfl⟩

/-- C10: BaseBackupProvider.backup raises exactly when the provider is not
initialized; once initialized, a thrown error in key generation or in the
upload is caught and surfaced as a resolved false, never as an exception. -/
theorem C10_backup_raises_iff (initialized : Bool) (name : String)
    (genKey : JsResult String) (upload : String → JsResult Bool) :
    ((∃ msg, providerBackup initialized name genKey upload = .thrown msg)
        ↔ initialized = false) ∧
    (initialized = true → ∀ e, genKey = .thrown e →
        providerBackup initialized name genKey upload = .ok false) ∧
    (initialized = true → ∀ key e, genKey = .ok key → upload key = .thrown e →
        providerBackup initialized name genKey upload = .ok false) ∧
    (initialized = true → ∃ b, providerBackup initialized name genKey upload = .ok b) := by
  cases initialized with
  | false => simp [providerBackup]
  | true =>
      cases genKey with
      | thrown e => simp [providerBackup]
      | ok key =>
          cases h : upload key with
          | thrown e2 => simp [providerBackup, h]
          | ok b =>
              simp [providerBackup, h]
              intro k e hk he
              rw [← hk, h] at he
              simp at he

/-- Witness for C10: an uninitialized provider throws, an initialized provider
resolves false on a thrown key generation and on a thrown upload. -/
theorem C10_backup_raises_iff_witness :
    providerBackup false "s3" (.ok "key") (fun _ => .ok true)
      = .thrown "s3 provider not initialized" ∧
    providerBackup true "s3" (.thrown "boom") (fun _ => .ok true) = .ok false ∧
    providerBackup true "s3" (.ok "key") (fun _ => .thrown "net") = .ok false := by
  refine ⟨by decide, ?_, ?_⟩
  · exact (C10_backup_raises_iff true "s3" (.thrown "boom") (fun _ => .ok true)).2.1
      rfl "boom" rfl
  · exact (C10_backup_raises_iff true "s3" (.ok "key") (fun _ => .thrown "net")).2.2.1
      rfl "key" "net" rfl rfl

/-- C4: Diff tolerance. For a matching remote backup whose parsed timestamp is
T + 3000 ms the diff is same; T + 8000 ms gives remote-newer; T - 8000 ms
gives local-newer; with no matching remote backup the diff is remote-missing;
and any parsed remote timestamp within 5000 ms of T gives same, showing the
tolerance check is applied before the ordering comparison. -/
theorem C4_diff_tolerance (parse : String → Option Int) (initialized : Bool)
    (cached : Option (List BackupMetadata)) (listResult : List BackupMetadata)
    (filePath : String) (T : Int) :
    (∀ md, getRemoteMetadataFromCache parse initialized cached listResult filePath
        = .ok (some md) →
      ((parse md.timestamp = some (T + 3000) →
          diffWithRemote parse initialized cached listResult filePath T = .same) ∧
       (parse md.timestamp = some (T + 8000) →
          diffWithRemote parse initialized cached listResult filePath T = .remoteNewer) ∧
       (parse md.timestamp = some (T - 8000) →
          diffWithRemote parse initialized cached listResult filePath T = .localNewer) ∧
       (∀ r, parse md.timestamp = some r → |r - T| < 5000 →
          diffWithRemote parse initialized cached listResult filePath T = .same))) ∧
    (getRemoteMetadataFromCache parse initialized cached listResult filePath = .ok none →
      diffWithRemote parse initialized cached listResult filePath T = .remoteMissing) := by
  constructor
  · intro md hmd
    have hd := diffWithRemote_eq_of_ok_some parse initialized cached listResult
      filePath md T hmd
    refine ⟨?_, ?_, ?_, ?_⟩
    · intro hts
      rw [hd, hts]
      refine compareTimes_same _ _ ?_
      rw [show T + 3000 - T = (3000 : Int) by ring]
      decide
    · intro hts
      rw [hd, hts]
      refine compareTimes_remoteNewer _ _ ?_ ?_
      · rw [show T + 8000 - T = (8000 : Int) by ring]
        decide
      · intro hh
        linarith
    · intro hts
      rw [hd, hts]
      refine compareTimes_localNewer _ _ ?_ ?_
      · rw [show T - 8000 - T = (-8000 : Int) by ring]
        decide
      · linarith
    · intro r hts habs
      rw [hd, hts]
      exact compareTimes_same _ _ habs
  · intro hmd
    exact diffWithRemote_eq_of_ok_none parse initialized cached listResult filePath T hmd

/-- Witness for C4 at a cached catalog with one matching backup parsed 3000 ms
after the local time 0. -/
theorem C4_diff_tolerance_witness :
    diffWithRemote parseTbl true (some [mdAt "r3" "vault/pages/a.md"]) []
      "vault/pages/a.md" 0 = .same :=
  ((C4_diff_tolerance parseTbl true (some [mdAt "r3" "vault/pages/a.md"]) []
      "vault/pages/a.md" 0).1 (mdAt "r3" "vault/pages/a.md") (by decide)).1 (by decide)

/-- Counterexample to C5 as stated: a matching remote backup whose timestamp
string does not parse makes diffWithRemote return remote-newer, not
local-newer, because the NaN comparisons fall through without throwing. -/
theorem C5_comparison_failure_counterexample :
    diffWithRemote parseNone true (some [mdAt "garbage" "vault/pages/a.md"]) []
      "vault/pages/a.md" 0 = .remoteNewer ∧
    diffWithRemote parseNone true (some [mdAt "garbage" "vault/pages/a.md"]) []
      "vault/pages/a.md" 0 ≠ .localNewer :=
  ⟨by decide, by decide⟩

/-- C5 (amended): diffWithRemote returns local-newer exactly on thrown
comparison failures, such as the cacheless listBackups call on an
uninitialized provider; a malformed remote timestamp does not throw, and the
NaN comparison semantics make the result remote-newer instead. -/
theorem C5_comparison_failure_amended (parse : String → Option Int)
    (listResult : List BackupMetadata) (filePath : String) (localUpdatedAt : Int) :
    diffWithRemote parse false none listResult filePath localUpdatedAt = .localNewer ∧
    (∀ (initialized : Bool) (cached : Option (List BackupMetadata)) (md : BackupMetadata),
      getRemoteMetadataFromCache parse initialized cached listResult filePath
        = .ok (some md) →
      parse md.timestamp = none →
      diffWithRemote parse initialized cached listResult filePath localUpdatedAt
        = .remoteNewer) := by
  constructor
  · rfl
  · intro initialized cached md hmd hts
    rw [diffWithRemote_eq_of_ok_some parse initialized cached listResult filePath md
      localUpdatedAt hmd, hts]
    rfl

/-- Witness for C5 (amended): the uninitialized cacheless provider gives
local-newer, and a matched backup with an unparsable timestamp gives
remote-newer. -/
theorem C5_comparison_failure_amended_witness :
    diffWithRemote parseNone false none [] "vault/pages/a.md" 0 = .localNewer ∧
    diffWithRemote parseNone true (some [mdAt "zzz" "vault/pages/a.md"]) []
      "vault/pages/a.md" 0 = .remoteNewer :=
  ⟨(C5_comparison_failure_amended parseNone [] "vault/pages/a.md" 0).1,
   (C5_comparison_failure_amended parseNone [] "vault/pages/a.md" 0).2 true
     (some [mdAt "zzz" "vault/pages/a.md"]) (mdAt "zzz" "vault/pages/a.md")
     (by decide) rfl⟩

/-- Counterexample to C6 as stated: metadata with no relativePath but a
non-empty pageName derives a pages key from the page name, not the
timestamp-keyed fallback (whose actual suffix is .zip, not .archive). -/
theorem C6_key_derivation_counterexample :
    s3GenerateBackupKey "backup" mdPageOnly = "backup/vault/pages/my_page.md" ∧
    s3GenerateBackupKey "backup" mdPageOnly ≠
      "backup/" ++ ("vault/backups/" ++ (sanitizeTimestamp mdPageOnly.timestamp
        ++ ".archive")) ∧
    s3GenerateBackupKey "backup" mdPageOnly ≠
      "backup/" ++ ("vault/backups/" ++ (sanitizeTimestamp mdPageOnly.timestamp
        ++ ".zip")) :=
  ⟨by decide, by decide, by decide⟩

/-- C6 (amended): generateBackupKey is a pure function, implemented by the S3
and WebDAV providers identically for the same non-empty prefix setting; a
present non-empty relativePath already starting with collectionName/ is used
as-is after the prefix and is otherwise prefixed with collectionName/; an
absent relativePath with a non-empty pageName derives a journals/ or pages/
key from the page name; only when pageName is empty too does the key fall
back to collectionName/backups/(sanitized timestamp).zip; and for
relativePath notes/journals/2024_01_01.md with collectionName vault the key
is the prefix followed by vault/notes/journals/2024_01_01.md. -/
theorem C6_key_derivation_amended (pathPfx : String) (metadata : BackupMetadata) :
    s3GenerateBackupKey pathPfx metadata = s3GenerateBackupKey pathPfx metadata ∧
    (pathPfx ≠ "" →
      s3GenerateBackupKey pathPfx metadata
        = webdavGenerateBackupKey (some pathPfx) metadata) ∧
    (∀ fp, metadata.filePath = some fp → fp ≠ "" →
      jsStartsWith fp (metadata.graphName ++ "/") = true →
      s3GenerateBackupKey pathPfx metadata = s3NormalizePfx pathPfx ++ fp) ∧
    (∀ fp, metadata.filePath = some fp → fp ≠ "" →
      jsStartsWith fp (metadata.graphName ++ "/") = false →
      s3GenerateBackupKey pathPfx metadata
        = s3NormalizePfx pathPfx ++ metadata.graphName ++ "/" ++ fp) ∧
    (jsTruthyStr metadata.filePath = false → metadata.pageName ≠ "" →
      isJournalPageName metadata.pageName = true →
      s3GenerateBackupKey pathPfx metadata
        = s3NormalizePfx pathPfx ++ metadata.graphName ++ "/journals/" ++
            journalFileNameOf metadata.pageName) ∧
    (jsTruthyStr metadata.filePath = false → metadata.pageName ≠ "" →
      isJournalPageName metadata.pageName = false →
      s3GenerateBackupKey pathPfx metadata
        = s3NormalizePfx pathPfx ++ metadata.graphName ++ "/pages/" ++
            providerPageFileName metadata.pageName) ∧
    (jsTruthyStr metadata.filePath = false → metadata.pageName = "" →
      s3GenerateBackupKey pathPfx metadata
        = s3NormalizePfx pathPfx ++ metadata.graphName ++ "/backups/" ++
            sanitizeTimestamp metadata.timestamp ++ ".zip") ∧
    (metadata.filePath = some "notes/journals/2024_01_01.md" →
      metadata.graphName = "vault" →
      s3GenerateBackupKey pathPfx metadata
        = s3NormalizePfx pathPfx ++ "vault/notes/journals/2024_01_01.md") := by
  refine ⟨rfl, ?_, ?_, ?_, ?_, ?_, ?_, ?_⟩
  · intro hne
    have hpfx : s3NormalizePfx pathPfx = webdavNormalizePfx (some pathPfx) := by
      show (if jsEndsWith pathPfx "/" then pathPfx else pathPfx ++ "/")
          = (if jsEndsWith pathPfx "/" then pathPfx
             else (if pathPfx != "" then pathPfx else "logseq-backup") ++ "/")
      by_cases h : jsEndsWith pathPfx "/" = true
      · rw [if_pos h, if_pos h]
      · rw [if_neg h, if_neg h, if_pos (show (pathPfx != "") = true by simp [hne])]
    unfold s3GenerateBackupKey webdavGenerateBackupKey
    rw [hpfx]
  · intro fp hfp hne hsw
    unfold s3GenerateBackupKey
    rw [hfp]
    rw [if_pos (show jsTruthyStr (some fp) = true by simp [jsTruthyStr, hne])]
    simp only [Option.getD_some]
    rw [if_pos hsw]
  · intro fp hfp hne hsw
    unfold s3GenerateBackupKey
    rw [hfp]
    rw [if_pos (show jsTruthyStr (some fp) = true by simp [jsTruthyStr, hne])]
    simp only [Option.getD_some]
    rw [if_neg (show ¬ jsStartsWith fp (metadata.graphName ++ "/") = true by simp [hsw])]
  · intro htr hpn hj
    unfold s3GenerateBackupKey
    rw [if_neg (show ¬ jsTruthyStr metadata.filePath = true by simp [htr])]
    rw [if_pos (show (metadata.pageName != "") = true by simp [hpn])]
    rw [if_pos hj]
  · intro htr hpn hj
    unfold s3GenerateBackupKey
    rw [if_neg (show ¬ jsTruthyStr metadata.filePath = true by simp [htr])]
    rw [if_pos (show (metadata.pageName != "") = true by simp [hpn])]
    rw [if_neg (show ¬ isJournalPageName metadata.pageName = true by simp [hj])]
  · intro htr hpn
    unfold s3GenerateBackupKey
    rw [if_neg (show ¬ jsTruthyStr metadata.filePath = true by simp [htr])]
    rw [if_neg (show ¬ (metadata.pageName != "") = true by simp [hpn])]
  · intro hfp hg
    unfold s3GenerateBackupKey
    rw [hfp]
    rw [if_pos (show jsTruthyStr (some "notes/journals/2024_01_01.md") = true by decide)]
    simp only [Option.getD_some]
    rw [hg]
    rw [if_neg (show ¬ jsStartsWith "notes/journals/2024_01_01.md" ("vault" ++ "/") = true
      by decide)]
    rw [String.append_assoc, String.append_assoc]
    congr 1

/-- Witness for C6 (amended): with prefix backup, the documented example
metadata derives backup/vault/notes/journals/2024_01_01.md, identically in
both providers. -/
theorem C6_key_derivation_amended_witness :
    s3GenerateBackupKey "backup" mdExample = "backup/vault/notes/journals/2024_01_01.md" ∧
    s3GenerateBackupKey "backup" mdExample
      = webdavGenerateBackupKey (some "backup") mdExample := by
  obtain ⟨_, hcross, _, _, _, _, _, hex⟩ := C6_key_derivation_amended "backup" mdExample
  refine ⟨?_, hcross (by decide)⟩
  rw [hex rfl rfl]
  decide

/-- C1: Debounce correctness. For a burst of one or more change events each
separated from the previous one by less than the quiescence window, the
debouncer ends the burst with a single armed timer due one full window after
the last event (every event cancelled and replaced the pending timer, as the
prefix clause shows), no pass having fired during the burst; the fire at that
time runs exactly one processing pass containing all buffered events; and a
timer callback running while less than the window elapsed since
lastEditTimestamp only rearms the timer instead of invoking the processing
callback. -/
theorem C1_debounce_correctness (debounceTime : Nat) (times : List Int)
    (hne : times ≠ [])
    (hsep : times.Chain' (fun a b => a ≤ b ∧ b - a < debounceDelayMs debounceTime)) :
    (runEdits (debounceDelayMs debounceTime) times).timer
        = some (times.getLastD 0 + debounceDelayMs debounceTime) ∧
    (runEdits (debounceDelayMs debounceTime) times).lastEditTimestamp
        = times.getLastD 0 ∧
    (runEdits (debounceDelayMs debounceTime) times).changeBuffer
        = List.range times.length ∧
    (runEdits (debounceDelayMs debounceTime) times).processedPasses = [] ∧
    (runEdits (debounceDelayMs debounceTime) times).isProcessing = false ∧
    (∀ k, k < times.length →
      (runEdits (debounceDelayMs debounceTime) (times.take (k + 1))).timer
        = some ((times.take (k + 1)).getLastD 0 + debounceDelayMs debounceTime)) ∧
    (timerCallback (debounceDelayMs debounceTime)
        (times.getLastD 0 + debounceDelayMs debounceTime)
        (runEdits (debounceDelayMs debounceTime) times)).processedPasses
      = [List.range times.length] ∧
    (timerCallback (debounceDelayMs debounceTime)
        (times.getLastD 0 + debounceDelayMs debounceTime)
        (runEdits (debounceDelayMs debounceTime) times)).changeBuffer = [] ∧
    (timerCallback (debounceDelayMs debounceTime)
        (times.getLastD 0 + debounceDelayMs debounceTime)
        (runEdits (debounceDelayMs debounceTime) times)).timer = none ∧
    (∀ (s : DebounceState) (now : Int),
      now - s.lastEditTimestamp < debounceDelayMs debounceTime →
      timerCallback (debounceDelayMs debounceTime) now s
        = resetDebounceTimer (debounceDelayMs debounceTime) now
            { s with timer := none }) := by
  obtain ⟨t, ts, rfl⟩ := List.exists_cons_of_ne_nil hne
  have hf := runEditsFrom_fields (debounceDelayMs debounceTime) ts t 0 initialDebounceState
  have h1 : (runEdits (debounceDelayMs debounceTime) (t :: ts)).timer
      = some ((t :: ts).getLastD 0 + debounceDelayMs debounceTime) := by
    rw [List.getLastD_cons]
    exact hf.1
  have h2 : (runEdits (debounceDelayMs debounceTime) (t :: ts)).lastEditTimestamp
      = (t :: ts).getLastD 0 := by
    rw [List.getLastD_cons]
    exact hf.2.1
  have h3 : (runEdits (debounceDelayMs debounceTime) (t :: ts)).changeBuffer
      = List.range (t :: ts).length := by
    rw [List.range_eq_range']
    simpa [initialDebounceState] using hf.2.2.1
  have h4 : (runEdits (debounceDelayMs debounceTime) (t :: ts)).processedPasses = [] :=
    hf.2.2.2.2
  have h5 : (runEdits (debounceDelayMs debounceTime) (t :: ts)).isProcessing = false :=
    hf.2.2.2.1
  have h6 : ∀ k, k < (t :: ts).length →
      (runEdits (debounceDelayMs debounceTime) ((t :: ts).take (k + 1))).timer
        = some (((t :: ts).take (k + 1)).getLastD 0 + debounceDelayMs debounceTime) := by
    intro k hk
    have hpre := runEditsFrom_fields (debounceDelayMs debounceTime) (ts.take k) t 0
      initialDebounceState
    rw [List.take_succ_cons, List.getLastD_cons]
    exact hpre.1
  have hguard : ¬ ((t :: ts).getLastD 0 + debounceDelayMs debounceTime)
      - (runEdits (debounceDelayMs debounceTime) (t :: ts)).lastEditTimestamp
      < debounceDelayMs debounceTime := by
    rw [h2]
    rw [show (t :: ts).getLastD 0 + debounceDelayMs debounceTime - (t :: ts).getLastD 0
        = debounceDelayMs debounceTime by ring]
    exact lt_irrefl _
  have hbufne : (runEdits (debounceDelayMs debounceTime) (t :: ts)).changeBuffer ≠ [] := by
    rw [h3]
    simp [List.range_eq_nil]
  have hfire := timerCallback_processes (debounceDelayMs debounceTime)
    ((t :: ts).getLastD 0 + debounceDelayMs debounceTime)
    (runEdits (debounceDelayMs debounceTime) (t :: ts)) hguard hbufne h5
  refine ⟨h1, h2, h3, h4, h5, h6, ?_, ?_, ?_, ?_⟩
  · rw [hfire]
    show (runEdits (debounceDelayMs debounceTime) (t :: ts)).processedPasses
        ++ [(runEdits (debounceDelayMs debounceTime) (t :: ts)).changeBuffer]
      = [List.range (t :: ts).length]
    rw [h4, h3]
    rfl
  · rw [hfire]
  · rw [hfire]
  · intro s now hg
    exact timerCallback_rearms (debounceDelayMs debounceTime) now s hg

/-- Witness for C1 at debounceTime 1 s and a burst at 0, 500 and 900 ms: the
surviving timer is due at 1900 ms, no pass fired during the burst, and the
fire at 1900 ms processes one pass holding all three events. -/
theorem C1_debounce_correctness_witness :
    (runEdits (debounceDelayMs 1) [0, 500, 900]).timer = some 1900 ∧
    (runEdits (debounceDelayMs 1) [0, 500, 900]).processedPasses = [] ∧
    (timerCallback (debounceDelayMs 1) ([0, 500, 900].getLastD 0 + debounceDelayMs 1)
        (runEdits (debounceDelayMs 1) [0, 500, 900])).processedPasses
      = [[0, 1, 2]] := by
  obtain ⟨h1, _, _, h4, _, _, h7, _, _, _⟩ := C1_debounce_correctness 1 [0, 500, 900]
    (by decide)
    (List.Chain.cons (by decide) (List.Chain.cons (by decide) List.Chain.nil))
  refine ⟨?_, h4, ?_⟩
  · rw [h1]
    decide
  · rw [h7]
    decide

/-- C2: No lost updates during processing. An event arriving while a pass is
in flight is appended to the buffer with the flag untouched; the completing
pass clears isProcessing, keeps the buffered events, and re-arms the timer
since the buffer is non-empty; the subsequent timer fire consumes the whole
buffer, so the arrived event is in the next pass snapshot; and a timer fire
reaching processChangesIfNeeded while a pass runs is a no-op. -/
theorem C2_no_lost_updates (delay tArr tEnd : Int) (e : Nat) (others : List (Nat × Int))
    (s : DebounceState) (snap : List Nat) (hproc : s.isProcessing = true) :
    (onChangedHandler delay e tArr s).changeBuffer = s.changeBuffer ++ [e] ∧
    (onChangedHandler delay e tArr s).isProcessing = true ∧
    e ∈ (foldHandlers delay others (onChangedHandler delay e tArr s)).changeBuffer ∧
    (processEnd delay tEnd snap
        (foldHandlers delay others (onChangedHandler delay e tArr s))).isProcessing
      = false ∧
    (processEnd delay tEnd snap
        (foldHandlers delay others (onChangedHandler delay e tArr s))).changeBuffer
      = (foldHandlers delay others (onChangedHandler delay e tArr s)).changeBuffer ∧
    (processEnd delay tEnd snap
        (foldHandlers delay others (onChangedHandler delay e tArr s))).timer
      = some (tEnd + delay) ∧
    (∀ now, ¬ now - (processEnd delay tEnd snap
          (foldHandlers delay others (onChangedHandler delay e tArr s))).lastEditTimestamp
        < delay →
      (timerCallback delay now (processEnd delay tEnd snap
          (foldHandlers delay others (onChangedHandler delay e tArr s)))).processedPasses
        = (processEnd delay tEnd snap
            (foldHandlers delay others (onChangedHandler delay e tArr s))).processedPasses
          ++ [(processEnd delay tEnd snap
            (foldHandlers delay others (onChangedHandler delay e tArr s))).changeBuffer] ∧
      e ∈ (processEnd delay tEnd snap
          (foldHandlers delay others (onChangedHandler delay e tArr s))).changeBuffer ∧
      (timerCallback delay now (processEnd delay tEnd snap
          (foldHandlers delay others (onChangedHandler delay e tArr s)))).changeBuffer
        = []) ∧
    (∀ (st : DebounceState) (now : Int), st.isProcessing = true →
      processChangesIfNeeded delay now st = st) := by
  have hfold := foldHandlers_fields delay others (onChangedHandler delay e tArr s)
  have hmem : e ∈ (foldHandlers delay others
      (onChangedHandler delay e tArr s)).changeBuffer := by
    rw [hfold.1]
    show e ∈ (s.changeBuffer ++ [e]) ++ others.map Prod.fst
    simp
  have hS2ne : (foldHandlers delay others
      (onChangedHandler delay e tArr s)).changeBuffer ≠ [] := by
    intro hnil
    rw [hnil] at hmem
    exact absurd hmem (List.not_mem_nil e)
  have hend : processEnd delay tEnd snap
      (foldHandlers delay others (onChangedHandler delay e tArr s)) =
      resetDebounceTimer delay tEnd
        { foldHandlers delay others (onChangedHandler delay e tArr s) with
          isProcessing := false,
          processedPasses := (foldHandlers delay others
            (onChangedHandler delay e tArr s)).processedPasses ++ [snap] } := by
    unfold processEnd
    rw [if_neg hS2ne]
  have hS3proc : (processEnd delay tEnd snap
      (foldHandlers delay others (onChangedHandler delay e tArr s))).isProcessing
      = false := by
    rw [hend]
    rfl
  have hS3buf : (processEnd delay tEnd snap
      (foldHandlers delay others (onChangedHandler delay e tArr s))).changeBuffer
      = (foldHandlers delay others (onChangedHandler delay e tArr s)).changeBuffer := by
    rw [hend]
    rfl
  have hS3ne : (processEnd delay tEnd snap
      (foldHandlers delay others (onChangedHandler delay e tArr s))).changeBuffer
      ≠ [] := by
    rw [hS3buf]
    exact hS2ne
  refine ⟨rfl, hproc, hmem, hS3proc, hS3buf, by rw [hend]; rfl, ?_, ?_⟩
  · intro now hg
    have hfire := timerCallback_processes delay now
      (processEnd delay tEnd snap (foldHandlers delay others
        (onChangedHandler delay e tArr s))) hg hS3ne hS3proc
    refine ⟨?_, ?_, ?_⟩
    · rw [hfire]
    · rw [hS3buf]
      exact hmem
    · rw [hfire]
  · intro st now hst
    unfold processChangesIfNeeded
    rw [if_pos (Or.inr hst)]

/-- Witness for C2: a pass in flight (snapshot [7]) sees events 8 and 9
arrive; after it completes at 300 ms the timer is re-armed for 1300 ms, and
the fire at 1300 ms processes [8, 9]. -/
theorem C2_no_lost_updates_witness :
    (processEnd 1000 300 [7] (foldHandlers 1000 [(9, 200)]
        (onChangedHandler 1000 8 100 ⟨none, [], true, 0, []⟩))).isProcessing = false ∧
    (processEnd 1000 300 [7] (foldHandlers 1000 [(9, 200)]
        (onChangedHandler 1000 8 100 ⟨none, [], true, 0, []⟩))).timer = some 1300 ∧
    (timerCallback 1000 1300 (processEnd 1000 300 [7] (foldHandlers 1000 [(9, 200)]
        (onChangedHandler 1000 8 100 ⟨none, [], true, 0, []⟩)))).processedPasses
      = [[7], [8, 9]] := by
  obtain ⟨_, _, _, h4, _, h6, h7, _⟩ := C2_no_lost_updates 1000 100 300 8 [(9, 200)]
    ⟨none, [], true, 0, []⟩ [7] rfl
  have hf := h7 1300 (by decide)
  refine ⟨h4, ?_, ?_⟩
  · rw [h6]
    decide
  · rw [hf.1]
    decide

/-- Counterexample to C8 as stated: a startup sync pass over two pages against
one provider makes two listBackups invocations, not one, because the page
whose remote copy is newer triggers a second listing inside pullFromRemote. -/
theorem C8_catalog_cache_counterexample :
    initialSyncListCalls parseTbl provC8
      [("vault/pages/a.md", 0), ("vault/pages/b.md", 0)] = 2 ∧
    initialSyncListCalls parseTbl provC8
      [("vault/pages/a.md", 0), ("vault/pages/b.md", 0)] ≠ 1 :=
  ⟨by decide, by decide⟩

/-- C8 (amended): performInitialSync lists each enabled provider once up
front, and every per-page timestamp comparison reads the populated cache with
zero further listBackups calls; however the pull path of a remote-newer page
lists again, so a pass makes 1 + (number of remote-newer pages) listBackups
invocations, exactly one when no page pulls. -/
theorem C8_catalog_cache_amended (parse : String → Option Int) (p : SyncProviderState)
    (pages : List (String × Int)) :
    diffListCalls { p with cached := some p.listResult } = 0 ∧
    initialSyncListCalls parse p pages
      = 1 + pages.countP (fun pg =>
          diffWithRemote parse p.initialized (some p.listResult) p.listResult pg.1 pg.2
            == .remoteNewer) ∧
    ((∀ pg ∈ pages,
        diffWithRemote parse p.initialized (some p.listResult) p.listResult pg.1 pg.2
          ≠ .remoteNewer) →
      initialSyncListCalls parse p pages = 1) := by
  have hkey : ∀ (l : List (String × Int)),
      (l.map (fun pg => syncPageListCalls parse { p with cached := some p.listResult }
          pg.1 pg.2)).sum
        = l.countP (fun pg =>
            diffWithRemote parse p.initialized (some p.listResult) p.listResult pg.1 pg.2
              == .remoteNewer) := by
    intro l
    induction l with
    | nil => rfl
    | cons a l ih =>
        rw [List.map_cons, List.sum_cons, List.countP_cons, ih]
        by_cases hd : diffWithRemote parse p.initialized (some p.listResult) p.listResult
            a.1 a.2 = .remoteNewer
        · simp [syncPageListCalls, diffListCalls, hd]
          omega
        · simp [syncPageListCalls, diffListCalls, hd]
  have h2 : initialSyncListCalls parse p pages
      = 1 + pages.countP (fun pg =>
          diffWithRemote parse p.initialized (some p.listResult) p.listResult pg.1 pg.2
            == .remoteNewer) := by
    show 1 + (pages.map (fun pg => syncPageListCalls parse
        { p with cached := some p.listResult } pg.1 pg.2)).sum = _
    rw [hkey]
  refine ⟨rfl, h2, ?_⟩
  intro hall
  rw [h2]
  have hzero : pages.countP (fun pg =>
      diffWithRemote parse p.initialized (some p.listResult) p.listResult pg.1 pg.2
        == .remoteNewer) = 0 := by
    refine List.countP_eq_zero.mpr ?_
    intro a ha
    simpa using hall a ha
  rw [hzero]

/-- Witness for C8 (amended): a single-page pass with no remote-newer decision
makes exactly one listBackups invocation. -/
theorem C8_catalog_cache_amended_witness :
    initialSyncListCalls parseTbl provC8 [("vault/pages/b.md", 0)] = 1 :=
  (C8_catalog_cache_amended parseTbl provC8 [("vault/pages/b.md", 0)]).2.2 (by decide)

/-- C9: Implicit tag-page over-filtering. A page whose properties hold a
truthy tags entry is flagged by detectTagPage, so the backupAllPages loop
never reaches the attempted branch (it is counted skipped, as the tag-page
skip when it is not a system page), createPageBackup returns null for it, and
this holds in tagged mode even when the page tags satisfy the configured
backupTags filter. -/
theorem C9_tag_page_over_filtering (settings : SettingsModel) (page : LogseqPage)
    (pageTags : List String) (graphOpen hasBlocks : Bool)
    (hprops : page.hasProperties = true) (htags : tagsTruthy page.propertiesTags = true) :
    detectTagPage page = true ∧
    pageBackupDecision settings page pageTags ≠ .attempted ∧
    ((jsStartsWith page.name "logseq-" || page.name == "contents"
        || page.name == "card") = false →
      pageBackupDecision settings page pageTags = .skippedTagPage) ∧
    (graphOpen = true →
      createPageBackupResult graphOpen (some page) hasBlocks = .nullResult) ∧
    (settings.backupMode = "tagged" → shouldBackupPage pageTags settings = true →
      pageBackupDecision settings page pageTags ≠ .attempted) := by
  have hdet : detectTagPage page = true := by
    unfold detectTagPage
    split
    · rfl
    · split
      · rfl
      · rw [if_pos (show (page.hasProperties && tagsTruthy page.propertiesTags) = true by
          rw [hprops, htags]; rfl)]
  have hskip : pageBackupDecision settings page pageTags = .skippedSystem ∨
      pageBackupDecision settings page pageTags = .skippedTagPage := by
    unfold pageBackupDecision
    by_cases hsys : (jsStartsWith page.name "logseq-" || page.name == "contents"
        || page.name == "card") = true
    · rw [if_pos hsys]
      exact Or.inl rfl
    · rw [if_neg hsys, if_pos hdet]
      exact Or.inr rfl
  have hne : pageBackupDecision settings page pageTags ≠ .attempted := by
    rcases hskip with h | h <;> rw [h] <;> decide
  have h3 : (jsStartsWith page.name "logseq-" || page.name == "contents"
      || page.name == "card") = false →
      pageBackupDecision settings page pageTags = .skippedTagPage := by
    intro hsys
    unfold pageBackupDecision
    rw [if_neg (show ¬ (jsStartsWith page.name "logseq-" || page.name == "contents"
        || page.name == "card") = true by simp [hsys])]
    rw [if_pos hdet]
  have h4 : graphOpen = true →
      createPageBackupResult graphOpen (some page) hasBlocks = .nullResult := by
    intro hg
    subst hg
    simp [createPageBackupResult, hdet]
  exact ⟨hdet, hne, h3, h4, fun _ _ => hne⟩

/-- Witness for C9 at a page carrying exactly the configured tag (project) in
tagged mode: the page is detected as a tag page, skipped as such, and
createPageBackup returns null, although its tags pass the configured filter. -/
theorem C9_tag_page_over_filtering_witness :
    detectTagPage ⟨"My Page", none, true, .arrVal ["project"], false, none⟩ = true ∧
    pageBackupDecision ⟨"tagged", "project"⟩
      ⟨"My Page", none, true, .arrVal ["project"], false, none⟩ ["project"]
      = .skippedTagPage ∧
    createPageBackupResult true
      (some ⟨"My Page", none, true, .arrVal ["project"], false, none⟩) true
      = .nullResult ∧
    shouldBackupPage ["project"] ⟨"tagged", "project"⟩ = true := by
  obtain ⟨h1, _, h3, h4, _⟩ := C9_tag_page_over_filtering ⟨"tagged", "project"⟩
    ⟨"My Page", none, true, .arrVal ["project"], false, none⟩ ["project"] true true
    rfl rfl
  exact ⟨h1, h3 (by decide), h4 rfl, by decide⟩

end SuperSync
